import Mathlib

set_option autoImplicit false

/-!
Verification of the operator-dispatch runtime
(`aten/src/ATen/core/dispatch/Dispatcher.h`).

The dispatcher selects one kernel per call from a runtime type tag derived
from the arguments, with thread-local include/exclude overrides, a per-key
kernel table, an optional catchall kernel and two failure modes.  The
definitions below are shallow embeddings of the functions in that header;
components whose definitions live in headers not present in this tree
(`TensorTypeSet.h`, `DispatchTable.h`, `OperatorEntry.h`, the
`DispatchKeyExtractor`, `Dispatcher.cpp`) are modelled from the spec and
say so in their doc comments.
-/

deriving instance DecidableEq for Except

namespace PytorchDispatch

/-- Modelled from the spec: `TensorTypeId` (header `TensorTypeId.h` is not in
the tree).  A value from a small closed, priority-ordered enumeration; we
model it as `Nat`, larger meaning higher priority, with `0` the distinguished
undefined tag. -/
abbrev TensorTypeId := Nat

/-- The distinguished undefined tag (`TensorTypeId::UndefinedTensorId`). -/
def UndefinedTensorId : TensorTypeId := 0

/-- Modelled from the spec: `TensorTypeSet` (header `TensorTypeSet.h` is not
in the tree).  A bitset-like set of tags with O(1) union/difference and a
highest-priority-member query; the empty set is the valid distinguished
"undefined" value. -/
abbrev TensorTypeSet := Finset Nat

/-- Modelled from the spec: `TensorTypeSet::highestPriorityTypeId`, the
"highest-priority member" query; on the empty set it yields the undefined
tag. -/
def highestPriorityTypeId (ts : TensorTypeSet) : TensorTypeId :=
  ts.sup id

/-- Modelled from the spec: the thread-local override state
(`c10::impl::LocalTensorTypeSet`), an included and an excluded tag set.  The
embedding passes it explicitly instead of reading thread-local storage. -/
structure LocalTensorTypeSet where
  included_ : TensorTypeSet
  excluded_ : TensorTypeSet
deriving DecidableEq

/-- `impl::dispatchTypeId` (Dispatcher.h lines 27-30): combine the argument
tag set with the thread-local included and excluded sets and extract the
highest-priority tag: `((ts | local.included_) - local.excluded_)
.highestPriorityTypeId()`. -/
def dispatchTypeId (ts : TensorTypeSet) (l : LocalTensorTypeSet) : TensorTypeId :=
  highestPriorityTypeId ((ts ∪ l.included_) \ l.excluded_)

/-- An argument of a call, as seen by `detail::MultiDispatchTensorTypeSet`
(Dispatcher.h lines 35-52): tensors and tensor options carry a tag set,
a tensor list carries one per element, every other argument contributes
nothing. -/
inductive DispatchArg where
  | tensor (type_set : TensorTypeSet)
  | tensorOptions (type_set : TensorTypeSet)
  | tensorList (type_sets : List TensorTypeSet)
  | untagged
deriving DecidableEq

/-- The tag-set contribution of one argument, following the overloads of
`MultiDispatchTensorTypeSet::operator()`. -/
def DispatchArg.contribution : DispatchArg → TensorTypeSet
  | .tensor s => s
  | .tensorOptions s => s
  | .tensorList ss => ss.foldl (fun acc s => acc ∪ s) ∅
  | .untagged => ∅

/-- `detail::multi_dispatch_tensor_type_set` (Dispatcher.h lines 56-59):
fold the union of every argument's tag set, starting from the empty set. -/
def multi_dispatch_tensor_type_set (args : List DispatchArg) : TensorTypeSet :=
  args.foldl (fun acc a => acc ∪ a.contribution) ∅

/-- `KernelFunction` is an opaque copyable callable (its definition and the
computation it performs are out of scope per the spec); we model it by an
identity. -/
abbrev KernelFunction := Nat

/-- Association-list insert-or-overwrite, the model of
`ska::flat_hash_map::emplace` followed by in-place overwrite as used by
`KernelTable_::set`.  Returns the new list and whether the key was already
present (the overwrite case).  Iteration order of the unordered container is
modelled as insertion order; the container itself specifies no ordering. -/
def assocSet {β : Type} : List (Nat × β) → Nat → β → List (Nat × β) × Bool
  | [], key, value => ([(key, value)], false)
  | (k, v) :: rest, key, value =>
    if k = key then ((k, value) :: rest, true)
    else
      let r := assocSet rest key value
      ((k, v) :: r.1, r.2)

/-- Association-list find, the model of `ska::flat_hash_map::find`. -/
def assocFind {β : Type} : List (Nat × β) → Nat → Option β
  | [], _ => none
  | (k, v) :: rest, key => if k = key then some v else assocFind rest key

/-- `detail::KernelTable_` (Dispatcher.h lines 64-108): a per-operator map
from dispatch key to kernel. -/
structure KernelTable_ where
  map_ : List (TensorTypeId × KernelFunction)
deriving DecidableEq

/-- The empty kernel table. -/
def KernelTable_.emptyTable : KernelTable_ := ⟨[]⟩

/-- `KernelTable_::set` (lines 66-73): emplace; if the key already existed,
overwrite it and emit a warning (`TORCH_WARN`).  The returned `Bool` is true
exactly when the warning was emitted; the operation never fails.  The
`operator_name` argument only feeds the warning text. -/
def KernelTable_.set (t : KernelTable_) (key : TensorTypeId) (value : KernelFunction)
    (operator_name : String) : KernelTable_ × Bool :=
  let r := assocSet t.map_ key value
  (⟨r.1⟩, r.2)

/-- `KernelTable_::removeIfExists` (lines 75-78): erase the key if present;
a no-op otherwise. -/
def KernelTable_.removeIfExists (t : KernelTable_) (key : TensorTypeId) : KernelTable_ :=
  ⟨t.map_.filter (fun p => decide (p.1 ≠ key))⟩

/-- `KernelTable_::lookup` (lines 80-87): pure find, absent is `none` rather
than a failure. -/
def KernelTable_.lookup (t : KernelTable_) (key : TensorTypeId) : Option KernelFunction :=
  assocFind t.map_ key

/-- `KernelTable_::size` (lines 89-91). -/
def KernelTable_.size (t : KernelTable_) : Nat :=
  t.map_.length

/-- The `", " ++ key` rendering of every key after the first, following the
loop of `list_all_dispatch_keys`. -/
def renderTail : List TensorTypeId → String
  | [] => "]"
  | k :: rest => ", " ++ Nat.repr k ++ renderTail rest

/-- `KernelTable_::list_all_dispatch_keys` (lines 93-104): `"[]"` for an
empty table, otherwise the keys in map iteration order, comma-separated in
brackets. -/
def KernelTable_.list_all_dispatch_keys (t : KernelTable_) : String :=
  match t.map_ with
  | [] => "[]"
  | (k, _) :: rest => "[" ++ Nat.repr k ++ renderTail (rest.map Prod.fst)

/-- Modelled from the spec: `DispatchTable` (header `DispatchTable.h` is not
in the tree): the per-operator kernel table plus one optional catchall
kernel, carrying the operator name for diagnostics. -/
structure DispatchTable where
  kernels_ : KernelTable_
  catchall_ : Option KernelFunction
  operatorName_ : String
deriving DecidableEq

/-- `DispatchTable::lookup`: pure read of the per-key table. -/
def DispatchTable.lookup (t : DispatchTable) (key : TensorTypeId) : Option KernelFunction :=
  t.kernels_.lookup key

/-- `DispatchTable::lookupCatchallKernel`: pure read of the catchall slot. -/
def DispatchTable.lookupCatchallKernel (t : DispatchTable) : Option KernelFunction :=
  t.catchall_

/-- `DispatchTable::listAllDispatchKeys`: delegates to the kernel table's
diagnostic listing. -/
def DispatchTable.listAllDispatchKeys (t : DispatchTable) : String :=
  t.kernels_.list_all_dispatch_keys

/-- `DispatchTable::operatorName`. -/
def DispatchTable.operatorName (t : DispatchTable) : String :=
  t.operatorName_

/-- The two call-time failures raised by `Dispatcher::dispatch_`
(`TORCH_CHECK(false, ...)` at lines 309-313 and 317-319): no tagged
arguments, and no kernel found for a concrete key.  Each carries the
operator name and the diagnostic listing; `noKernelFound` also carries the
requested key's rendering. -/
inductive DispatchError where
  | noTaggedArguments (operatorName : String) (availableFunctions : String)
  | noKernelFound (operatorName : String) (dispatchKeyStr : String) (registeredKeys : String)
deriving DecidableEq

/-- `Dispatcher::dispatch_` (Dispatcher.h lines 294-320): look the key up in
the table when one was extracted; fall back to the catchall; otherwise fail
with `noTaggedArguments` when the key is absent or undefined and with
`noKernelFound` otherwise. -/
def dispatch_ (dispatchTable : DispatchTable) (dispatchKey : Option TensorTypeId) :
    Except DispatchError KernelFunction :=
  let backendKernel : Option KernelFunction :=
    match dispatchKey with
    | some key => dispatchTable.lookup key
    | none => none
  match backendKernel with
  | some k => Except.ok k
  | none =>
    match dispatchTable.lookupCatchallKernel with
    | some k => Except.ok k
    | none =>
      if dispatchKey = none ∨ dispatchKey = some UndefinedTensorId then
        Except.error (DispatchError.noTaggedArguments dispatchTable.operatorName
          dispatchTable.listAllDispatchKeys)
      else
        let dispatchKeyStr :=
          match dispatchKey with
          | some key => Nat.repr key
          | none => "None"
        Except.error (DispatchError.noKernelFound dispatchTable.operatorName dispatchKeyStr
          dispatchTable.listAllDispatchKeys)

/-- Modelled from the spec: `FunctionSchema` (schema parsing and contents
are out of scope); only its identity matters here. -/
structure FunctionSchema where
  name : String
deriving DecidableEq

/-- Modelled from the spec: `impl::OperatorEntry` (header `OperatorEntry.h`
is not in the tree): one schema plus one dispatch table;
`readDispatchTable` is plain read access in this single-state embedding. -/
structure OperatorEntry where
  schema_ : FunctionSchema
  dispatchTable_ : DispatchTable
deriving DecidableEq

/-- `Dispatcher::OperatorDef` (Dispatcher.h lines 134-140): an operator
entry plus the refcount of outstanding registrations. -/
structure OperatorDef where
  op : OperatorEntry
  refcount : Nat
deriving DecidableEq

/-- The registry state of `Dispatcher` (lines 216-219): `operators_` is a
`std::list<OperatorDef>`.  We model each list node by a stable numeric node
id (the node's address): `std::list` never relocates nodes, so an id issued
at insertion stays bound to the same node for the node's lifetime.
`nextNode` is the next fresh id. -/
structure Dispatcher where
  nextNode : Nat
  operators_ : List (Nat × OperatorDef)
deriving DecidableEq

/-- `OperatorHandle` (lines 227-248) stores an iterator into
`Dispatcher::operators_`; in the node-id model it is the node id. -/
abbrev OperatorHandle := Nat

/-- Dereference a handle: find the node the iterator points at.  In C++ this
is `operatorIterator_->op`; here it is a lookup by node id. -/
def Dispatcher.entryAt (d : Dispatcher) (h : OperatorHandle) : Option OperatorDef :=
  assocFind d.operators_ h

/-- The outcome of a registration: the new registry state, the handle of
the registered operator, and whether the registry mutex was taken. -/
structure RegisterResult where
  state : Dispatcher
  handle : OperatorHandle
  usedMutex : Bool
deriving DecidableEq

/-- Modelled from the spec: the new-operator branch of
`Dispatcher::findOrRegisterSchema_` (defined in `Dispatcher.cpp`, not in the
tree): under the registry mutex, append a fresh `OperatorDef` node with
refcount 1 to `operators_` and hand back its iterator.  Appending a node to
a `std::list` never moves existing nodes, which the fresh node id models. -/
def Dispatcher.registerNewSchema (d : Dispatcher) (schema : FunctionSchema)
    (table : DispatchTable) : RegisterResult :=
  ⟨⟨d.nextNode + 1, d.operators_ ++ [(d.nextNode, ⟨⟨schema, table⟩, 1⟩)]⟩, d.nextNode, true⟩

/-- A sequence of registrations of new (unrelated) operators, applied in
order. -/
def Dispatcher.registerMany (d : Dispatcher)
    (regs : List (FunctionSchema × DispatchTable)) : Dispatcher :=
  regs.foldl (fun s r => (s.registerNewSchema r.1 r.2).state) d

/-- Modelled from the spec: `DispatchKeyExtractor::getDispatchKeyUnboxed`
(its header is not in the tree): collect the argument tag set with
`multi_dispatch_tensor_type_set` and reduce it with the thread-local state
via `dispatchTypeId`; a pure function of the arguments and the thread-local
sets. -/
def getDispatchKeyUnboxed (args : List DispatchArg) (tls : LocalTensorTypeSet) :
    Option TensorTypeId :=
  some (dispatchTypeId (multi_dispatch_tensor_type_set args) tls)

/-- Modelled from the spec: `DispatchKeyExtractor::getDispatchKeyBoxed`: the
same extraction applied to the boxed argument stack. -/
def getDispatchKeyBoxed (stack : List DispatchArg) (tls : LocalTensorTypeSet) :
    Option TensorTypeId :=
  some (dispatchTypeId (multi_dispatch_tensor_type_set stack) tls)

/-- The outcome of a call: the kernel dispatch resolved to (or the failure),
the registry state after the call, and whether the registry mutex was
taken.  Invoking the resolved kernel is out of scope (kernels are opaque). -/
structure CallResult where
  resolvedKernel : Except DispatchError KernelFunction
  finalState : Dispatcher
  usedMutex : Bool
deriving DecidableEq

/-- `Dispatcher::callUnboxed` (Dispatcher.h lines 265-273): read the
handle's dispatch table (no mutex: list writes keep iterators intact),
extract the dispatch key from the typed arguments, resolve with
`dispatch_`.  `none` models the undefined behaviour of a dangling handle. -/
def Dispatcher.callUnboxed (d : Dispatcher) (op : OperatorHandle) (args : List DispatchArg)
    (tls : LocalTensorTypeSet) : Option CallResult :=
  (d.entryAt op).map (fun opDef =>
    let dispatchTable := opDef.op.dispatchTable_
    let dispatchKey := getDispatchKeyUnboxed args tls
    ⟨dispatch_ dispatchTable dispatchKey, d, false⟩)

/-- `Dispatcher::callUnboxedOnly` (lines 275-283): identical resolution to
`callUnboxed`; only the invocation convention of the resolved kernel
differs, which is out of scope. -/
def Dispatcher.callUnboxedOnly (d : Dispatcher) (op : OperatorHandle)
    (args : List DispatchArg) (tls : LocalTensorTypeSet) : Option CallResult :=
  (d.entryAt op).map (fun opDef =>
    let dispatchTable := opDef.op.dispatchTable_
    let dispatchKey := getDispatchKeyUnboxed args tls
    ⟨dispatch_ dispatchTable dispatchKey, d, false⟩)

/-- `Dispatcher::callBoxed` (lines 285-292): read the handle's dispatch
table (no mutex), extract the dispatch key from the boxed stack, resolve
with `dispatch_`. -/
def Dispatcher.callBoxed (d : Dispatcher) (op : OperatorHandle) (stack : List DispatchArg)
    (tls : LocalTensorTypeSet) : Option CallResult :=
  (d.entryAt op).map (fun opDef =>
    let dispatchTable := opDef.op.dispatchTable_
    let dispatchKey := getDispatchKeyBoxed stack tls
    ⟨dispatch_ dispatchTable dispatchKey, d, false⟩)

/-- Rendering of a key sequence in the shape produced by
`list_all_dispatch_keys`: used to state that the listing depends only on the
key sequence in iteration order. -/
def keyRender : List TensorTypeId → String
  | [] => "[]"
  | k :: rest => "[" ++ Nat.repr k ++ renderTail rest

/-- A concrete dispatch table used by witnesses: no per-key kernels, a
catchall kernel `9`. -/
def sampleTable : DispatchTable := ⟨⟨[]⟩, some 9, "aten::sample"⟩

/-- A concrete one-operator registry used by witnesses: node `0` holds
`sampleTable`. -/
def sampleDispatcher : Dispatcher := ⟨1, [(0, ⟨⟨⟨"aten::sample"⟩, sampleTable⟩, 1⟩)]⟩

theorem assocFind_append_of_some {β : Type} (l l2 : List (Nat × β)) (k : Nat) (v : β)
    (h : assocFind l k = some v) : assocFind (l ++ l2) k = some v := by
  induction l with
  | nil => simp [assocFind] at h
  | cons p rest ih =>
    obtain ⟨pk, pv⟩ := p
    by_cases hk : pk = k
    · simpa [assocFind, hk] using h
    · simp only [assocFind, hk, if_false, List.cons_append] at h ⊢
      exact ih h

theorem assocFind_assocSet_self {β : Type} (l : List (Nat × β)) (k : Nat) (v : β) :
    assocFind (assocSet l k v).1 k = some v := by
  induction l with
  | nil => simp [assocSet, assocFind]
  | cons p rest ih =>
    obtain ⟨pk, pv⟩ := p
    by_cases hk : pk = k
    · simp [assocSet, hk, assocFind]
    · simp [assocSet, hk, assocFind, ih]

theorem assocSet_warns_iff {β : Type} (l : List (Nat × β)) (k : Nat) (v : β) :
    (assocSet l k v).2 = true ↔ k ∈ l.map Prod.fst := by
  induction l with
  | nil => simp [assocSet]
  | cons p rest ih =>
    obtain ⟨pk, pv⟩ := p
    by_cases hk : pk = k
    · simp [assocSet, hk]
    · simp only [assocSet, hk, if_false, List.map_cons, List.mem_cons]
      rw [ih]
      constructor
      · intro hm
        exact Or.inr hm
      · intro hm
        rcases hm with hm | hm
        · exact absurd hm.symm hk
        · exact hm

theorem assocSet_keys {β : Type} (l : List (Nat × β)) (k : Nat) (v : β) :
    (assocSet l k v).1.map Prod.fst =
      if k ∈ l.map Prod.fst then l.map Prod.fst else l.map Prod.fst ++ [k] := by
  induction l with
  | nil => simp [assocSet]
  | cons p rest ih =>
    obtain ⟨pk, pv⟩ := p
    by_cases hk : pk = k
    · simp [assocSet, hk]
    · simp only [assocSet, hk, if_false, List.map_cons, List.mem_cons]
      rw [ih]
      by_cases hm : k ∈ rest.map Prod.fst
      · simp [hm, Ne.symm hk]
      · simp [hm, Ne.symm hk]

theorem assocSet_keys_nodup {β : Type} (l : List (Nat × β)) (k : Nat) (v : β)
    (h : (l.map Prod.fst).Nodup) : ((assocSet l k v).1.map Prod.fst).Nodup := by
  rw [assocSet_keys]
  by_cases hm : k ∈ l.map Prod.fst
  · simpa [hm] using h
  · simp only [hm, if_false]
    simpa [List.nodup_append, hm] using h

theorem assocSet_value_unique {β : Type} (l : List (Nat × β)) (k : Nat) (v : β)
    (h : (l.map Prod.fst).Nodup) :
    ∀ p ∈ (assocSet l k v).1, p.1 = k → p.2 = v := by
  induction l with
  | nil =>
    intro p hp _
    simp [assocSet] at hp
    rw [hp]
  | cons q rest ih =>
    obtain ⟨qk, qv⟩ := q
    intro p hp hpk
    simp only [List.map_cons, List.nodup_cons] at h
    by_cases hk : qk = k
    · simp only [assocSet, hk, if_true, List.mem_cons] at hp
      rcases hp with hp | hp
      · rw [hp]
      · exfalso
        apply h.1
        rw [hk]
        rw [← hpk]
        exact List.mem_map_of_mem Prod.fst hp
    · simp only [assocSet, hk, if_false, List.mem_cons] at hp
      rcases hp with hp | hp
      · exfalso
        apply hk
        rw [← hpk, hp]
      · exact ih h.2 p hp hpk

theorem mem_keys_assocSet_self {β : Type} (l : List (Nat × β)) (k : Nat) (v : β) :
    k ∈ (assocSet l k v).1.map Prod.fst := by
  rw [assocSet_keys]
  by_cases hm : k ∈ l.map Prod.fst
  · simp [hm]
  · simp [hm]

theorem list_all_eq_keyRender (t : KernelTable_) :
    t.list_all_dispatch_keys = keyRender (t.map_.map Prod.fst) := by
  unfold KernelTable_.list_all_dispatch_keys keyRender
  cases t.map_ with
  | nil => rfl
  | cons p rest => rfl

theorem dispatch_backend (t : DispatchTable) (key : TensorTypeId) (kf : KernelFunction)
    (h : t.lookup key = some kf) : dispatch_ t (some key) = Except.ok kf := by
  simp [dispatch_, h]

theorem dispatch_catchall (t : DispatchTable) (k : Option TensorTypeId)
    (h : ∀ key, k = some key → t.lookup key = none) (kc : KernelFunction)
    (hcc : t.lookupCatchallKernel = some kc) : dispatch_ t k = Except.ok kc := by
  cases k with
  | none => simp [dispatch_, hcc]
  | some key => simp [dispatch_, h key rfl, hcc]

theorem dispatch_error_undefined (t : DispatchTable) (k : Option TensorTypeId)
    (h : ∀ key, k = some key → t.lookup key = none)
    (hcc : t.lookupCatchallKernel = none)
    (hu : k = none ∨ k = some UndefinedTensorId) :
    dispatch_ t k = Except.error (DispatchError.noTaggedArguments t.operatorName
      t.listAllDispatchKeys) := by
  rcases hu with rfl | rfl
  · simp [dispatch_, hcc]
  · simp [dispatch_, h UndefinedTensorId rfl, hcc]

theorem dispatch_error_concrete (t : DispatchTable) (key : TensorTypeId)
    (h : t.lookup key = none) (hcc : t.lookupCatchallKernel = none)
    (hne : key ≠ UndefinedTensorId) :
    dispatch_ t (some key) = Except.error (DispatchError.noKernelFound t.operatorName
      (Nat.repr key) t.listAllDispatchKeys) := by
  simp [dispatch_, h, hcc, hne]

/-- Claim C3: the extracted dispatch key equals the highest-priority member
of `(ts ∪ included) − excluded`, or the undefined tag when that set is
empty; `dispatchTypeId` is a pure function of exactly these three inputs
(the embedding passes the thread-local state explicitly, so no other state
is read or written). -/
theorem c3_dispatch_key_extraction_spec (ts included excluded : TensorTypeSet) :
    ((ts ∪ included) \ excluded = ∅ →
      dispatchTypeId ts ⟨included, excluded⟩ = UndefinedTensorId) ∧
    (((ts ∪ included) \ excluded).Nonempty →
      dispatchTypeId ts ⟨included, excluded⟩ ∈ (ts ∪ included) \ excluded ∧
      ∀ t ∈ (ts ∪ included) \ excluded, t ≤ dispatchTypeId ts ⟨included, excluded⟩) := by
  constructor
  · intro h
    simp [dispatchTypeId, highestPriorityTypeId, h, UndefinedTensorId]
  · intro h
    constructor
    · obtain ⟨b, hb, hev⟩ := Finset.exists_mem_eq_sup _ h id
      simpa [dispatchTypeId, highestPriorityTypeId, hev] using hb
    · intro t ht
      have hle : id t ≤ ((ts ∪ included) \ excluded).sup id := Finset.le_sup ht
      exact hle

/-- Witness for C3 at `ts = {3}`, `included = {5}`, `excluded = {5}`: the
effective set is `{3}`, nonempty, and the extracted key belongs to it. -/
theorem c3_dispatch_key_extraction_spec_witness :
    ((({3} ∪ {5}) \ {5} : TensorTypeSet)).Nonempty ∧
    dispatchTypeId {3} ⟨{5}, {5}⟩ ∈ (({3} ∪ {5}) \ {5} : TensorTypeSet) :=
  ⟨by decide, ((c3_dispatch_key_extraction_spec {3} {5} {5}).2 (by decide)).1⟩

/-- Claim C2: when no kernel matches and no catchall is registered, the
failure is `noTaggedArguments` exactly when the extracted key is absent or
undefined, and otherwise `noKernelFound` carrying the requested key's
rendering and the listing of registered keys; the two failures are
distinct constructors of `DispatchError`. -/
theorem c2_failure_kind_discrimination (t : DispatchTable) (k : Option TensorTypeId)
    (hnok : ∀ key, k = some key → t.lookup key = none)
    (hnoc : t.lookupCatchallKernel = none) :
    ((k = none ∨ k = some UndefinedTensorId) →
        dispatch_ t k = Except.error (DispatchError.noTaggedArguments t.operatorName
          t.listAllDispatchKeys)) ∧
    (∀ key, k = some key → key ≠ UndefinedTensorId →
        dispatch_ t k = Except.error (DispatchError.noKernelFound t.operatorName
          (Nat.repr key) t.listAllDispatchKeys)) ∧
    (∀ a b c d e, DispatchError.noTaggedArguments a b ≠ DispatchError.noKernelFound c d e) := by
  refine ⟨?_, ?_, ?_⟩
  · intro hu
    exact dispatch_error_undefined t k hnok hnoc hu
  · intro key hkey hne
    subst hkey
    exact dispatch_error_concrete t key (hnok key rfl) hnoc hne
  · intro a b c d e hcontra
    exact DispatchError.noConfusion hcontra

/-- Witness for C2 at an empty table, no catchall, requested key `1`: the
failure is `noKernelFound` with key rendering `"1"` and listing `"[]"`. -/
theorem c2_failure_kind_discrimination_witness :
    dispatch_ ⟨⟨[]⟩, none, "aten::op"⟩ (some 1) =
      Except.error (DispatchError.noKernelFound "aten::op" "1" "[]") :=
  (c2_failure_kind_discrimination ⟨⟨[]⟩, none, "aten::op"⟩ (some 1)
    (fun _ _ => rfl) rfl).2.1 1 rfl (by decide)

/-- Claim C10: when the extracted key is the undefined tag but a kernel is
registered for the undefined tag itself, dispatch invokes that kernel: the
undefined key is looked up in the kernel table like any other key before
either error branch is considered, so the call does not fail with
`noTaggedArguments`. -/
theorem c10_undefined_key_kernel_invoked (t : DispatchTable) (kf : KernelFunction)
    (h : t.lookup UndefinedTensorId = some kf) :
    dispatch_ t (some UndefinedTensorId) = Except.ok kf ∧
    ∀ a b, dispatch_ t (some UndefinedTensorId) ≠
      Except.error (DispatchError.noTaggedArguments a b) := by
  have hb := dispatch_backend t UndefinedTensorId kf h
  refine ⟨hb, ?_⟩
  intro a b hcontra
  rw [hb] at hcontra
  exact Except.noConfusion hcontra

/-- Witness for C10: a table holding kernel `3` for the undefined tag `0`
dispatches the undefined key to kernel `3`. -/
theorem c10_undefined_key_kernel_invoked_witness :
    dispatch_ ⟨⟨[(0, 3)]⟩, none, "aten::op"⟩ (some UndefinedTensorId) = Except.ok 3 :=
  (c10_undefined_key_kernel_invoked ⟨⟨[(0, 3)]⟩, none, "aten::op"⟩ 3 rfl).1

/-- Claim C4: resolution order: a concrete key with a registered kernel
invokes that kernel; otherwise a registered catchall is invoked; in
particular with zero per-key kernels and one catchall, every call (any key,
including the undefined one or an absent one) invokes the catchall and does
not fail. -/
theorem c4_resolution_order_catchall (t : DispatchTable) :
    (∀ key kf, t.lookup key = some kf → dispatch_ t (some key) = Except.ok kf) ∧
    (∀ k : Option TensorTypeId, (∀ key, k = some key → t.lookup key = none) →
      ∀ kc, t.lookupCatchallKernel = some kc → dispatch_ t k = Except.ok kc) ∧
    (t.kernels_.map_ = [] → ∀ kc, t.lookupCatchallKernel = some kc →
      ∀ k : Option TensorTypeId, dispatch_ t k = Except.ok kc) := by
  refine ⟨?_, ?_, ?_⟩
  · intro key kf h
    exact dispatch_backend t key kf h
  · intro k hnone kc hcc
    exact dispatch_catchall t k hnone kc hcc
  · intro hemp kc hcc k
    apply dispatch_catchall t k ?_ kc hcc
    intro key _
    show assocFind t.kernels_.map_ key = none
    rw [hemp]
    rfl

/-- Witness for C4: with zero per-key kernels and catchall `9`, the
undefined key dispatches to the catchall. -/
theorem c4_resolution_order_catchall_witness :
    dispatch_ ⟨⟨[]⟩, some 9, "aten::op"⟩ (some UndefinedTensorId) = Except.ok 9 :=
  (c4_resolution_order_catchall ⟨⟨[]⟩, some 9, "aten::op"⟩).2.2 rfl 9 rfl
    (some UndefinedTensorId)

/-- Claim C1 counterexample: arguments carrying the tag set `{1, 2}` (so
`A = 2` has higher priority than `B = 1`), kernel `7` registered for `B`
only.  The claim says dispatch falls back to `B`'s kernel before any
catchall or failure; the code instead invokes the catchall (`9`, first
conjunct), and with no catchall it fails with `noKernelFound` rather than
invoking `B`'s kernel (third conjunct). -/
theorem c1_no_fallback_counterexample :
    dispatch_ ⟨⟨[(1, 7)]⟩, some 9, "aten::op"⟩
        (getDispatchKeyUnboxed [DispatchArg.tensor {2}, DispatchArg.tensor {1}] ⟨∅, ∅⟩) =
      Except.ok 9 ∧
    (9 : KernelFunction) ≠ 7 ∧
    dispatch_ ⟨⟨[(1, 7)]⟩, none, "aten::op"⟩
        (getDispatchKeyUnboxed [DispatchArg.tensor {2}, DispatchArg.tensor {1}] ⟨∅, ∅⟩) =
      Except.error (DispatchError.noKernelFound "aten::op" "2" "[1]") := by
  refine ⟨by decide, by decide, by decide⟩

/-- Claim C1 amended: dispatch looks up only the single highest-priority
extracted key `A`: it invokes `A`'s kernel whenever one is registered, and
when `A` has no registered kernel it never consults the kernel of any
lower-priority tag — any successfully invoked kernel is then the catchall,
and with no catchall the call fails. -/
theorem c1_amended_highest_priority_only (t : DispatchTable) (ts : TensorTypeSet)
    (tls : LocalTensorTypeSet) :
    (∀ kA, t.lookup (dispatchTypeId ts tls) = some kA →
        dispatch_ t (some (dispatchTypeId ts tls)) = Except.ok kA) ∧
    (t.lookup (dispatchTypeId ts tls) = none →
        ∀ k, dispatch_ t (some (dispatchTypeId ts tls)) = Except.ok k →
          t.lookupCatchallKernel = some k) ∧
    (t.lookup (dispatchTypeId ts tls) = none → t.lookupCatchallKernel = none →
        ∃ e, dispatch_ t (some (dispatchTypeId ts tls)) = Except.error e) := by
  refine ⟨?_, ?_, ?_⟩
  · intro kA hA
    exact dispatch_backend t (dispatchTypeId ts tls) kA hA
  · intro hA k hok
    cases hcc : t.lookupCatchallKernel with
    | some kc =>
      have := dispatch_catchall t (some (dispatchTypeId ts tls))
        (fun key hkey => by rw [← Option.some.inj hkey]; exact hA) kc hcc
      rw [this] at hok
      exact congrArg some (Except.ok.inj hok)
    | none =>
      exfalso
      by_cases hz : dispatchTypeId ts tls = UndefinedTensorId
      · have herr := dispatch_error_undefined t (some (dispatchTypeId ts tls))
          (fun key hkey => by rw [← Option.some.inj hkey]; exact hA) hcc
          (Or.inr (by rw [hz]))
        rw [herr] at hok
        exact Except.noConfusion hok
      · have herr := dispatch_error_concrete t (dispatchTypeId ts tls) hA hcc hz
        rw [herr] at hok
        exact Except.noConfusion hok
  · intro hA hcc
    by_cases hz : dispatchTypeId ts tls = UndefinedTensorId
    · exact ⟨_, dispatch_error_undefined t (some (dispatchTypeId ts tls))
        (fun key hkey => by rw [← Option.some.inj hkey]; exact hA) hcc
        (Or.inr (by rw [hz]))⟩
    · exact ⟨_, dispatch_error_concrete t (dispatchTypeId ts tls) hA hcc hz⟩

/-- Witness for the amended C1: tag set `{1, 2}` extracts key `2`; with
kernel `8` registered for key `2` and kernel `7` for key `1`, dispatch
invokes `8`. -/
theorem c1_amended_highest_priority_only_witness :
    dispatch_ ⟨⟨[(1, 7), (2, 8)]⟩, none, "aten::op"⟩
      (some (dispatchTypeId {1, 2} ⟨∅, ∅⟩)) = Except.ok 8 :=
  (c1_amended_highest_priority_only ⟨⟨[(1, 7), (2, 8)]⟩, none, "aten::op"⟩ {1, 2}
    ⟨∅, ∅⟩).1 8 (by decide)

/-- Claim C5: two successive `set` registrations for the same key leave the
table holding exactly the second kernel for that key: the lookup returns
`kernel2`, the second `set` reports the overwrite warning (and still
succeeds — `set` is total), and every entry for that key carries `kernel2`
(given well-formed, duplicate-free keys). -/
theorem c5_set_last_write_wins (t : KernelTable_) (tag : TensorTypeId)
    (k1 k2 : KernelFunction) (n1 n2 : String)
    (hnd : (t.map_.map Prod.fst).Nodup) :
    (((t.set tag k1 n1).1.set tag k2 n2).1.lookup tag = some k2) ∧
    (((t.set tag k1 n1).1.set tag k2 n2).2 = true) ∧
    (∀ p ∈ ((t.set tag k1 n1).1.set tag k2 n2).1.map_, p.1 = tag → p.2 = k2) := by
  refine ⟨?_, ?_, ?_⟩
  · show assocFind (assocSet (assocSet t.map_ tag k1).1 tag k2).1 tag = some k2
    exact assocFind_assocSet_self _ _ _
  · show (assocSet (assocSet t.map_ tag k1).1 tag k2).2 = true
    rw [assocSet_warns_iff]
    exact mem_keys_assocSet_self _ _ _
  · intro p hp hpk
    exact assocSet_value_unique _ _ _ (assocSet_keys_nodup _ _ _ hnd) p hp hpk

/-- Witness for C5: registering kernel `10` then kernel `11` for key `3`
in the empty table leaves `lookup 3 = some 11` and the second registration
warns. -/
theorem c5_set_last_write_wins_witness :
    ((((⟨[]⟩ : KernelTable_).set 3 10 "a").1.set 3 11 "b").1.lookup 3 = some 11) ∧
    ((((⟨[]⟩ : KernelTable_).set 3 10 "a").1.set 3 11 "b").2 = true) :=
  ⟨(c5_set_last_write_wins ⟨[]⟩ 3 10 11 "a" "b" (by decide)).1,
   (c5_set_last_write_wins ⟨[]⟩ 3 10 11 "a" "b" (by decide)).2.1⟩

/-- Claim C6 counterexample: registering keys `2` then `1` versus `1` then
`2` produces tables with the same set of registered keys but different
diagnostic listings (`"[2, 1]"` versus `"[1, 2]"`): the listing follows map
iteration order (modelled as insertion order; the unordered container
specifies no sorted order), so the same set of registered tags does not
always yield the same listing and the order is not sorted. -/
theorem c6_listing_not_canonical_counterexample :
    ((((KernelTable_.emptyTable.set 2 5 "op").1.set 1 6 "op").1.map_.map Prod.fst).toFinset =
      ((((KernelTable_.emptyTable.set 1 6 "op").1.set 2 5 "op").1.map_.map Prod.fst).toFinset)) ∧
    (((KernelTable_.emptyTable.set 2 5 "op").1.set 1 6 "op").1.list_all_dispatch_keys ≠
      ((KernelTable_.emptyTable.set 1 6 "op").1.set 2 5 "op").1.list_all_dispatch_keys) := by
  refine ⟨by decide, by decide⟩

/-- Claim C6 amended: the diagnostic listing is a deterministic function of
the sequence of registered keys in the table's iteration order (two tables
whose keys agree in order produce the same listing, whatever kernels they
hold); it is not a canonical rendering of the key set: different insertion
orders of the same set may differ, and the order is not sorted. -/
theorem c6_amended_listing_key_order (t1 t2 : KernelTable_)
    (h : t1.map_.map Prod.fst = t2.map_.map Prod.fst) :
    t1.list_all_dispatch_keys = t2.list_all_dispatch_keys := by
  rw [list_all_eq_keyRender, list_all_eq_keyRender, h]

/-- Witness for the amended C6: tables with equal key sequences but
different kernels produce the same listing. -/
theorem c6_amended_listing_key_order_witness :
    (⟨[(1, 5)]⟩ : KernelTable_).list_all_dispatch_keys =
      (⟨[(1, 6)]⟩ : KernelTable_).list_all_dispatch_keys :=
  c6_amended_listing_key_order ⟨[(1, 5)]⟩ ⟨[(1, 6)]⟩ rfl

/-- Claim C7: a handle that resolves to an entry keeps resolving to the
same entry after any number of subsequent registrations of unrelated
operators: registration appends a fresh node to the registry list
(`std::list` never relocates nodes) and never invalidates existing
handles. -/
theorem c7_handle_stability (d : Dispatcher) (h : OperatorHandle) (e : OperatorDef)
    (regs : List (FunctionSchema × DispatchTable)) (he : d.entryAt h = some e) :
    (d.registerMany regs).entryAt h = some e := by
  revert he
  induction regs generalizing d with
  | nil =>
    intro he
    exact he
  | cons r rs ih =>
    intro he
    exact ih _ (assocFind_append_of_some _ _ _ _ he)

/-- Witness for C7: the handle of `sampleDispatcher`'s only operator still
resolves to the same entry after two further registrations. -/
theorem c7_handle_stability_witness :
    (sampleDispatcher.registerMany
        [(⟨"aten::other"⟩, ⟨⟨[]⟩, none, "aten::other"⟩),
         (⟨"aten::third"⟩, ⟨⟨[]⟩, none, "aten::third"⟩)]).entryAt 0 =
      some ⟨⟨⟨"aten::sample"⟩, sampleTable⟩, 1⟩ :=
  c7_handle_stability sampleDispatcher 0 ⟨⟨⟨"aten::sample"⟩, sampleTable⟩, 1⟩
    [(⟨"aten::other"⟩, ⟨⟨[]⟩, none, "aten::other"⟩),
     (⟨"aten::third"⟩, ⟨⟨[]⟩, none, "aten::third"⟩)] (by decide)

/-- Claim C8: a call (boxed or either unboxed variant) leaves the registry
state — and with it every operator entry and kernel table — unchanged, and
takes the registry mutex at no point (registrations, by contrast, record
`usedMutex = true`). -/
theorem c8_call_frame_effects (d : Dispatcher) (op : OperatorHandle)
    (stack args : List DispatchArg) (tls : LocalTensorTypeSet) :
    (∀ r, d.callBoxed op stack tls = some r → r.finalState = d ∧ r.usedMutex = false) ∧
    (∀ r, d.callUnboxed op args tls = some r → r.finalState = d ∧ r.usedMutex = false) ∧
    (∀ r, d.callUnboxedOnly op args tls = some r → r.finalState = d ∧ r.usedMutex = false) := by
  refine ⟨fun r hr => ?_, fun r hr => ?_, fun r hr => ?_⟩ <;>
    cases hent : d.entryAt op <;>
    simp [Dispatcher.callBoxed, Dispatcher.callUnboxed, Dispatcher.callUnboxedOnly,
      hent] at hr <;>
    rw [← hr] <;>
    exact ⟨rfl, rfl⟩

/-- Witness for C8: the boxed call on `sampleDispatcher` returns state and
mutex flag untouched. -/
theorem c8_call_frame_effects_witness :
    (⟨Except.ok 9, sampleDispatcher, false⟩ : CallResult).finalState = sampleDispatcher ∧
    (⟨Except.ok 9, sampleDispatcher, false⟩ : CallResult).usedMutex = false :=
  (c8_call_frame_effects sampleDispatcher 0 [] [] ⟨∅, ∅⟩).1
    ⟨Except.ok 9, sampleDispatcher, false⟩ (by decide)

/-- Claim C9: the boxed and the typed/unboxed calling conventions route
through the one shared resolution `dispatch_`: whenever the boxed stack and
the typed arguments carry the same tag information, both entry points
resolve to the same kernel (and have the same state effects). -/
theorem c9_boxed_unboxed_same_resolution (d : Dispatcher) (op : OperatorHandle)
    (stack args : List DispatchArg) (tls : LocalTensorTypeSet)
    (hsame : multi_dispatch_tensor_type_set stack = multi_dispatch_tensor_type_set args)
    (rb ru : CallResult)
    (hb : d.callBoxed op stack tls = some rb)
    (hu : d.callUnboxed op args tls = some ru) :
    rb.resolvedKernel = ru.resolvedKernel ∧ rb.finalState = ru.finalState := by
  cases hent : d.entryAt op with
  | none =>
    rw [Dispatcher.callBoxed, hent] at hb
    exact Option.noConfusion hb
  | some e =>
    rw [Dispatcher.callBoxed, hent] at hb
    rw [Dispatcher.callUnboxed, hent] at hu
    rw [← Option.some.inj hb, ← Option.some.inj hu]
    constructor
    · show dispatch_ e.op.dispatchTable_ (getDispatchKeyBoxed stack tls) =
        dispatch_ e.op.dispatchTable_ (getDispatchKeyUnboxed args tls)
      rw [getDispatchKeyBoxed, getDispatchKeyUnboxed, hsame]
    · rfl

/-- Witness for C9: the empty boxed stack and the empty typed argument list
resolve identically on `sampleDispatcher`. -/
theorem c9_boxed_unboxed_same_resolution_witness :
    (⟨Except.ok 9, sampleDispatcher, false⟩ : CallResult).resolvedKernel =
      (⟨Except.ok 9, sampleDispatcher, false⟩ : CallResult).resolvedKernel :=
  (c9_boxed_unboxed_same_resolution sampleDispatcher 0 [] [] ⟨∅, ∅⟩ rfl
    ⟨Except.ok 9, sampleDispatcher, false⟩ ⟨Except.ok 9, sampleDispatcher, false⟩
    (by decide) (by decide)).1

end PytorchDispatch
